import Mathlib

/-!
Verification of the ItineraryQuotationForm repository: a shallow embedding in
Lean 4 of its shared Zod schemas, the `/api/travel-booking` Express route, the
in-memory storage module, the client-side file-upload and dynamic-list
components, the template-placeholder scanner, and the localStorage draft
persistence helpers, together with theorems settling the specification's
claims about them.

JavaScript numbers are modelled as `Int` (no claim depends on fractional or
floating-point behaviour); `null`/`undefined` values are modelled as
`Option`; effectful inputs (current time, generated UUID, webhook outcome,
file-encoding outcome) are passed as explicit parameters.
-/

namespace ItineraryQuotation

/-- The nullable `uploaded_file` object of `travelBookingSchema`
(`src/shared/schema.ts` lines 16-21): filename, byte size, MIME type and
base64 content. -/
structure UploadedFile where
  filename : String
  size : Int
  type : String
  data : String
deriving Repr, DecidableEq

/-- The record described by `travelBookingSchema` (`src/shared/schema.ts`
lines 3-25), i.e. the TypeScript type `TravelBooking`. `nullable` fields are
`Option`s. -/
structure TravelBooking where
  starting_date : Option String
  meals_provided : Bool
  flight_information : String
  number_of_delegates : Int
  number_of_tour_leaders : Int
  hotel_selection : String
  tour_fare : Option Int
  single_supplement : Option Int
  special_terms_enabled : Bool
  special_terms : List String
  tour_fair_includes : List String
  tour_fair_excludes : List String
  uploaded_file : Option UploadedFile
  markdown_content : String
  file_size_limit_enabled : Bool
  itinerary_language : String
deriving Repr, DecidableEq

/-- JSON values, as received by the Express route in `req.body`. Numbers are
modelled as `Int`; objects as association lists in key order. -/
inductive Json where
  | null
  | bool (b : Bool)
  | num (n : Int)
  | str (s : String)
  | arr (elems : List Json)
  | obj (fields : List (String × Json))

/-- A single Zod validation issue: the path to the offending field and its
message, as collected in `ZodError.errors`. -/
structure ZodIssue where
  path : List String
  message : String
deriving Repr, DecidableEq

/-- Look a key up in a JSON object; `none` models an absent (`undefined`)
property. -/
def Json.get? (j : Json) (key : String) : Option Json :=
  match j with
  | .obj fields => fields.lookup key
  | _ => none

/-- Merge two Zod field results, concatenating issues in field order, the way
`z.object(...).parse` accumulates all issues before throwing. -/
def zodZip (a : Except (List ZodIssue) α) (b : Except (List ZodIssue) β) :
    Except (List ZodIssue) (α × β) :=
  match a, b with
  | .ok x, .ok y => .ok (x, y)
  | .error e, .ok _ => .error e
  | .ok _, .error e => .error e
  | .error e1, .error e2 => .error (e1 ++ e2)

/-- `z.string()` on one object property: absent is `Required`, non-string is
a type issue. -/
def zodString (path : List String) : Option Json → Except (List ZodIssue) String
  | none => .error [⟨path, "Required"⟩]
  | some (.str s) => .ok s
  | some _ => .error [⟨path, "Expected string"⟩]

/-- `z.string().nullable()`. -/
def zodNullableString (path : List String) :
    Option Json → Except (List ZodIssue) (Option String)
  | none => .error [⟨path, "Required"⟩]
  | some .null => .ok none
  | some (.str s) => .ok (some s)
  | some _ => .error [⟨path, "Expected string"⟩]

/-- `z.boolean()`. -/
def zodBool (path : List String) : Option Json → Except (List ZodIssue) Bool
  | none => .error [⟨path, "Required"⟩]
  | some (.bool b) => .ok b
  | some _ => .error [⟨path, "Expected boolean"⟩]

/-- `z.number()`. -/
def zodNumber (path : List String) : Option Json → Except (List ZodIssue) Int
  | none => .error [⟨path, "Required"⟩]
  | some (.num n) => .ok n
  | some _ => .error [⟨path, "Expected number"⟩]

/-- `z.number().nullable()`. -/
def zodNullableNumber (path : List String) :
    Option Json → Except (List ZodIssue) (Option Int)
  | none => .error [⟨path, "Required"⟩]
  | some .null => .ok none
  | some (.num n) => .ok (some n)
  | some _ => .error [⟨path, "Expected number"⟩]

/-- Elementwise check of `z.array(z.string())`, issues carrying the element
index as a path segment. -/
def zodStringElems (path : List String) : Nat → List Json →
    Except (List ZodIssue) (List String)
  | _, [] => .ok []
  | i, j :: rest =>
    let head : Except (List ZodIssue) String :=
      match j with
      | .str s => .ok s
      | _ => .error [⟨path ++ [toString i], "Expected string"⟩]
    (zodZip head (zodStringElems path (i + 1) rest)).map fun p => p.1 :: p.2

/-- `z.array(z.string())`. -/
def zodStringArray (path : List String) :
    Option Json → Except (List ZodIssue) (List String)
  | none => .error [⟨path, "Required"⟩]
  | some (.arr xs) => zodStringElems path 0 xs
  | some _ => .error [⟨path, "Expected array"⟩]

/-- The nested `uploaded_file` object schema of `travelBookingSchema`:
`z.object({filename, size, type, data}).nullable()`. -/
def zodUploadedFile (path : List String) :
    Option Json → Except (List ZodIssue) (Option UploadedFile)
  | none => .error [⟨path, "Required"⟩]
  | some .null => .ok none
  | some (.obj fields) =>
    let j := Json.obj fields
    (zodZip (zodString (path ++ ["filename"]) (j.get? "filename"))
      (zodZip (zodNumber (path ++ ["size"]) (j.get? "size"))
        (zodZip (zodString (path ++ ["type"]) (j.get? "type"))
          (zodString (path ++ ["data"]) (j.get? "data"))))).map
      fun p => some ⟨p.1, p.2.1, p.2.2.1, p.2.2.2⟩
  | some _ => .error [⟨path, "Expected object"⟩]

/-- `travelBookingSchema.parse` (`src/shared/schema.ts` lines 3-25) applied
to a JSON body: field checks run in shape-key order and all issues are
collected. Note that `itinerary_language` is a plain `z.string()` here — the
`.min(1)` constraint exists only in `travelBookingFormSchema`. -/
def travelBookingSchemaParse (j : Json) :
    Except (List ZodIssue) TravelBooking :=
  match j with
  | .obj _ =>
    (zodZip (zodNullableString ["starting_date"] (j.get? "starting_date"))
      (zodZip (zodBool ["meals_provided"] (j.get? "meals_provided"))
        (zodZip (zodString ["flight_information"] (j.get? "flight_information"))
          (zodZip (zodNumber ["number_of_delegates"] (j.get? "number_of_delegates"))
            (zodZip (zodNumber ["number_of_tour_leaders"] (j.get? "number_of_tour_leaders"))
              (zodZip (zodString ["hotel_selection"] (j.get? "hotel_selection"))
                (zodZip (zodNullableNumber ["tour_fare"] (j.get? "tour_fare"))
                  (zodZip (zodNullableNumber ["single_supplement"] (j.get? "single_supplement"))
                    (zodZip (zodBool ["special_terms_enabled"] (j.get? "special_terms_enabled"))
                      (zodZip (zodStringArray ["special_terms"] (j.get? "special_terms"))
                        (zodZip (zodStringArray ["tour_fair_includes"] (j.get? "tour_fair_includes"))
                          (zodZip (zodStringArray ["tour_fair_excludes"] (j.get? "tour_fair_excludes"))
                            (zodZip (zodUploadedFile ["uploaded_file"] (j.get? "uploaded_file"))
                              (zodZip (zodString ["markdown_content"] (j.get? "markdown_content"))
                                (zodZip (zodBool ["file_size_limit_enabled"] (j.get? "file_size_limit_enabled"))
                                  (zodString ["itinerary_language"] (j.get? "itinerary_language"))))))))))))))))).map
      fun p =>
        ⟨p.1, p.2.1, p.2.2.1, p.2.2.2.1, p.2.2.2.2.1, p.2.2.2.2.2.1,
         p.2.2.2.2.2.2.1, p.2.2.2.2.2.2.2.1, p.2.2.2.2.2.2.2.2.1,
         p.2.2.2.2.2.2.2.2.2.1, p.2.2.2.2.2.2.2.2.2.2.1,
         p.2.2.2.2.2.2.2.2.2.2.2.1, p.2.2.2.2.2.2.2.2.2.2.2.2.1,
         p.2.2.2.2.2.2.2.2.2.2.2.2.2.1, p.2.2.2.2.2.2.2.2.2.2.2.2.2.2.1,
         p.2.2.2.2.2.2.2.2.2.2.2.2.2.2.2⟩
  | _ => .error [⟨[], "Expected object"⟩]

/-- One `{field, message}` entry of the endpoint's validation-error
response, produced from an issue by `err.path.join('.')`. -/
structure FieldError where
  field : String
  message : String
deriving Repr, DecidableEq

/-- The JSON body (plus HTTP status) the route sends with `res.json`:
fields absent from a given response stay at their defaults. -/
structure EndpointResponse where
  status : Nat
  success : Bool
  message : String
  errors : List FieldError := []
  dataEcho : Option TravelBooking := none
  webhookResponse : Option Json := none
  webhookError : Option String := none

/-- Outcome of the `fetch` to the configured webhook URL: a response that was
`ok` (carrying the parsed body, or the `{success:true}` fallback), a non-ok
HTTP status with its error text, or a thrown transport error. -/
inductive WebhookOutcome where
  | ok (result : Json)
  | httpError (status : Nat) (text : String)
  | transportError (msg : String)

/-- Whether the webhook delivery failed (non-ok status or transport error). -/
def WebhookOutcome.failed : WebhookOutcome → Bool
  | .ok _ => false
  | .httpError _ _ => true
  | .transportError _ => true

/-- The POST `/api/travel-booking` handler of `registerRoutes`
(`server/routes.ts`): validate the body with `travelBookingSchema.parse`;
on a `ZodError` respond 400 with per-field errors; otherwise, if a webhook
URL is configured, forward and — on webhook failure — still respond
`success: true` with a `webhookError` marker; with no URL configured,
accept the data as-is. -/
def handleTravelBooking (body : Json) (webhookUrl : Option String)
    (outcome : WebhookOutcome) : EndpointResponse :=
  match travelBookingSchemaParse body with
  | .error issues =>
    { status := 400, success := false, message := "Validation error",
      errors := issues.map fun i => ⟨String.intercalate "." i.path, i.message⟩ }
  | .ok validatedData =>
    match webhookUrl with
    | some _ =>
      match outcome with
      | .ok result =>
        { status := 200, success := true,
          message := "Travel booking submitted successfully to webhook",
          webhookResponse := some result }
      | .httpError s t =>
        { status := 200, success := true,
          message := "Travel booking received successfully (webhook delivery failed)",
          dataEcho := some validatedData,
          webhookError := some ("Webhook failed: " ++ toString s ++ " - " ++ t) }
      | .transportError m =>
        { status := 200, success := true,
          message := "Travel booking received successfully (webhook delivery failed)",
          dataEcho := some validatedData,
          webhookError := some m }
    | none =>
      { status := 200, success := true,
        message := "Travel booking received successfully (no webhook configured)",
        dataEcho := some validatedData }

/-- A record as enriched and retained by `MemStorage.createTravelBooking`
(`server/storage.ts`): the booking plus generated `id` and `createdAt`. -/
structure StoredBooking where
  booking : TravelBooking
  id : String
  createdAt : Nat
deriving Repr, DecidableEq

/-- The `MemStorage` map from generated id to enriched record. -/
def MemStorage := List (String × StoredBooking)

/-- `MemStorage.createTravelBooking` (`server/storage.ts` lines 16-25): the
generated UUID and current time are passed explicitly; the enriched record
spreads the booking data unchanged and adds `id` and `createdAt`, and is
inserted into the map. -/
def createTravelBooking (store : MemStorage) (bookingData : TravelBooking)
    (id : String) (now : Nat) : StoredBooking × MemStorage :=
  let booking : StoredBooking := ⟨bookingData, id, now⟩
  (booking, (id, booking) :: store)

/-- The route handler with the storage module's state threaded through
explicitly. `registerRoutes` (`server/routes.ts`) never references the
storage module, so the state is returned unchanged. -/
def handleTravelBookingWithStore (store : MemStorage) (body : Json)
    (webhookUrl : Option String) (outcome : WebhookOutcome) :
    EndpointResponse × MemStorage :=
  (handleTravelBooking body webhookUrl outcome, store)

/-! ### The strict form schema (client side) -/

/-- Values of the richer form, as typed by `TravelBookingForm`
(`src/shared/schema.ts` lines 30-52); `optional` fields are `Option`s. -/
structure TravelBookingFormValues where
  starting_date : Option String
  meals_provided : Bool
  flight_information : Option String
  number_of_delegates : Int
  number_of_tour_leaders : Int
  hotel_selection : String
  tour_fare : Option Int
  single_supplement : Option Int
  special_terms_enabled : Bool
  special_terms : List String
  tour_fair_includes : List String
  tour_fair_excludes : List String
  uploaded_file : Option UploadedFile
  markdown_content : Option String
  file_size_limit_enabled : Bool
  itinerary_language : String
deriving Repr, DecidableEq

/-- The issues `travelBookingFormSchema` raises on already-typed form
values: the `.min(1)` constraints, the `uploaded_file` non-null `.refine`,
and the `itinerary_language` `.min(1)`, in shape-key order. -/
def travelBookingFormIssues (f : TravelBookingFormValues) : List ZodIssue :=
  (if f.number_of_delegates ≥ 1 then []
   else [⟨["number_of_delegates"], "At least 1 delegate is required"⟩])
  ++ (if f.number_of_tour_leaders ≥ 1 then []
   else [⟨["number_of_tour_leaders"], "At least 1 tour leader is required"⟩])
  ++ (if f.hotel_selection.length ≥ 1 then []
   else [⟨["hotel_selection"], "Hotel selection is required"⟩])
  ++ (if f.tour_fair_includes.length ≥ 1 then []
   else [⟨["tour_fair_includes"], "At least one include item is required"⟩])
  ++ (if f.tour_fair_excludes.length ≥ 1 then []
   else [⟨["tour_fair_excludes"], "At least one exclude item is required"⟩])
  ++ (match f.uploaded_file with
   | some _ => []
   | none => [⟨["uploaded_file"], "Document upload is required"⟩])
  ++ (if f.itinerary_language.length ≥ 1 then []
   else [⟨["itinerary_language"], "Please select or enter an itinerary language"⟩])

/-! ### FileUpload component (client/src/components/file-upload.tsx) -/

/-- `String.prototype.split` with a single-character separator, on
character lists (kept executable down to the characters, unlike the
opaque built-in string functions). `[].split(sep)` of an empty string is
`[""]`, as in JavaScript. -/
def splitOnChar (sep : Char) : List Char → List (List Char)
  | [] => [[]]
  | c :: rest =>
    let r := splitOnChar sep rest
    if c = sep then [] :: r
    else (c :: r.headD []) :: r.tail

/-- `String.prototype.trim`: strip leading and trailing whitespace. -/
def trimChars (l : List Char) : List Char :=
  ((l.dropWhile Char.isWhitespace).reverse.dropWhile Char.isWhitespace).reverse

/-- `String.prototype.toLowerCase` (ASCII). -/
def toLowerChars (l : List Char) : List Char :=
  l.map Char.toLower

/-- `'.' + file.name.split('.').pop()?.toLowerCase()`. -/
def fileExtensionOf (name : String) : List Char :=
  '.' :: toLowerChars ((splitOnChar '.' name.data).getLastD [])

/-- `accept.split(',').map(type => type.trim())`. -/
def allowedTypesOf (accept : String) : List (List Char) :=
  (splitOnChar ',' accept.data).map trimChars

/-- The `sizes` array of `formatFileSize`. -/
def sizeUnits : List String := ["Bytes", "KB", "MB", "GB"]

/-- `Math.floor(Math.log(bytes) / Math.log(1024))` for positive byte counts
in the ranges the unit table covers, expressed by exact tier comparison. -/
def sizeUnitIndex (bytes : Nat) : Nat :=
  if bytes < 1024 then 0
  else if bytes < 1024 * 1024 then 1
  else if bytes < 1024 * 1024 * 1024 then 2
  else 3

/-- `(bytes / Math.pow(k, i)).toFixed(2)` as a count of hundredths, rounded
to nearest (floats modelled by exact rational rounding). -/
def toFixed2Hundredths (num den : Nat) : Nat :=
  (num * 200 + den) / (2 * den)

/-- `parseFloat(x.toFixed(2))` rendered back to a string: trailing zero
decimals are dropped. -/
def trimmedDecimal (hundredths : Nat) : String :=
  let ip := hundredths / 100
  let fp := hundredths % 100
  if fp = 0 then toString ip
  else if fp % 10 = 0 then toString ip ++ "." ++ toString (fp / 10)
  else if fp < 10 then toString ip ++ ".0" ++ toString fp
  else toString ip ++ "." ++ toString fp

/-- `formatFileSize` of the FileUpload component. -/
def formatFileSize (bytes : Nat) : String :=
  if bytes = 0 then "0 Bytes"
  else
    let i := sizeUnitIndex bytes
    trimmedDecimal (toFixed2Hundredths bytes (1024 ^ i)) ++ " " ++
      (sizeUnits.getD i "")

/-- `validateFile` (file-upload.tsx lines 54-67): extension allow-list check
first, then the size ceiling; inside the component `maxSize` is always a
number, and `if (maxSize && ...)` treats `0` as falsy. -/
def validateFile (accept : String) (maxSize : Nat) (name : String)
    (size : Nat) : Option String :=
  if ¬ (allowedTypesOf accept).contains (fileExtensionOf name) then
    some "Invalid file type. Please upload PDF, DOC, or DOCX files only."
  else if maxSize ≠ 0 ∧ size > maxSize then
    some ("File size exceeds " ++ formatFileSize maxSize ++ " limit.")
  else
    none

/-- The component's destructuring default
`maxSize = 10 * 1024 * 1024` (file-upload.tsx line 27): a prop that is
absent or `undefined` falls back to 10 MB. -/
def fileUploadMaxSize (maxSizeProp : Option Nat) : Nat :=
  maxSizeProp.getD (10 * 1024 * 1024)

/-- The `maxSize` prop passed by travel-booking.tsx line 495:
`fileSizeLimit ? 10 * 1024 * 1024 : undefined`. -/
def maxSizeProp (fileSizeLimit : Bool) : Option Nat :=
  if fileSizeLimit then some (10 * 1024 * 1024) else none

/-- Outcome of the asynchronous `fileToBase64` read. -/
inductive EncodeOutcome where
  | ok (base64 : String)
  | failed

/-- What one run of `handleFile` does: the argument passed to `onChange`
(if it was called at all) and the error string left in state. -/
structure HandleFileResult where
  onChangeCall : Option (Option UploadedFile)
  error : Option String
deriving Repr, DecidableEq

/-- `handleFile` (file-upload.tsx lines 81-105): clear the error, validate;
on a validation error set it and return without calling `onChange`;
otherwise encode and call `onChange` with the encoded file, or set a
processing error if encoding fails. -/
def handleFile (accept : String) (maxSize : Nat) (name : String) (size : Nat)
    (mime : String) (enc : EncodeOutcome) : HandleFileResult :=
  match validateFile accept maxSize name size with
  | some e => ⟨none, some e⟩
  | none =>
    match enc with
    | .ok base64Data => ⟨some (some ⟨name, (size : Int), mime, base64Data⟩), none⟩
    | .failed => ⟨none, some "Failed to process file"⟩

/-- The legacy variant's size ceiling (travel-form.js line 194):
`limitEnabled ? 10 * 1024 * 1024 : Infinity`, with `Infinity` modelled as
`none` (no finite bound). -/
def legacyMaxSize (limitEnabled : Bool) : Option Nat :=
  if limitEnabled then some (10 * 1024 * 1024) else none

/-- The legacy variant's size check (travel-form.js line 196):
`file.size > maxSize` is false for every finite size when the bound is
`Infinity`. -/
def legacySizeCheckFails (limitEnabled : Bool) (size : Nat) : Bool :=
  match legacyMaxSize limitEnabled with
  | some m => size > m
  | none => false

/-! ### DynamicList component (client/src/components/dynamic-list.tsx) -/

/-- `getLetter` (dynamic-list.tsx lines 44-46):
`String.fromCharCode(97 + index)`. -/
def getLetter (index : Nat) : Char :=
  Char.ofNat (97 + index)

/-- One user operation on a dynamic list. -/
inductive ListOp where
  | add (s : String)
  | removeAt (index : Nat)
  | editAt (index : Nat) (s : String)

/-- `addItem` / `removeItem` / the inline edit handler of DynamicList:
append the trimmed new item when non-blank, `items.filter((_, i) => i !==
index)`, and in-place replacement at an index. -/
def applyListOp (items : List String) : ListOp → List String
  | .add s => if s.trim = "" then items else items ++ [s.trim]
  | .removeAt index => ((items.enum.filter fun p => p.1 ≠ index).map fun p => p.2)
  | .editAt index s => items.set index s

/-- A sequence of list operations applied in order. -/
def applyListOps (items : List String) (ops : List ListOp) : List String :=
  ops.foldl applyListOp items

/-- The labels DynamicList renders: `getLetter(index)` recomputed for every
live index on every render. -/
def renderLabels (items : List String) : List Char :=
  (List.range items.length).map getLetter

/-- An entry of the legacy (travel-form.js) include/exclude list: the label
character is baked into the DOM when the row is created. -/
structure LegacyItem where
  label : Char
  text : String
deriving Repr, DecidableEq

/-- `populatePresetItems` (travel-form.js lines 45-62): presets are rendered
with `String.fromCharCode(97 + index)` at creation. -/
def populatePresetItems (presets : List String) : List LegacyItem :=
  presets.enum.map fun p => ⟨getLetter p.1, p.2⟩

/-- `addListItem` (travel-form.js lines 118-143): a new row is appended with
the letter taken from the running counter (the input starts empty), and the
counter is incremented. -/
def legacyAddListItem (items : List LegacyItem) (counter : Nat) :
    List LegacyItem × Nat :=
  (items ++ [⟨getLetter counter, ""⟩], counter + 1)

/-- `removeListItem` (travel-form.js lines 146-153): the row is removed and
the remaining rows keep their baked-in labels (the source comments that
renumbering is left to "a production app"). -/
def legacyRemoveListItem (items : List LegacyItem) (index : Nat) :
    List LegacyItem :=
  items.eraseIdx index

/-! ### Template-placeholder scanner
(client/src/components/editable-template-list.tsx, `renderEditableTemplate`) -/

/-- Segment kind of a parsed template part. -/
inductive SegKind where
  | text
  | placeholder
deriving Repr, DecidableEq

/-- One entry of the `parts` array built by `renderEditableTemplate`. -/
structure Seg where
  kind : SegKind
  content : List Char
deriving Repr, DecidableEq

/-- One attempt of the regex `\x7b\x7b([^\x7d]+)\x7d\x7d` at the start of
the input: two opening braces, a non-empty greedy run of non-closing-brace
characters, then two closing braces; on success returns the inner text and
the remainder after the match. -/
def matchPlaceholder (l : List Char) : Option (List Char × List Char) :=
  match l with
  | c1 :: c2 :: rest =>
    if c1 = '{' ∧ c2 = '{' then
      if rest.takeWhile (· != '}') ≠ [] ∧
          (rest.dropWhile (· != '}')).take 2 = ['}', '}'] then
        some (rest.takeWhile (· != '}'), (rest.dropWhile (· != '}')).drop 2)
      else none
    else none
  | _ => none

def matchPlaceholder_some {l inner after : List Char}
    (h : matchPlaceholder l = some (inner, after)) :
    l = '{' :: '{' :: inner ++ '}' :: '}' :: after ∧ inner ≠ [] := by
  match l with
  | [] => simp [matchPlaceholder] at h
  | [c] => simp [matchPlaceholder] at h
  | c1 :: c2 :: rest =>
    simp only [matchPlaceholder] at h
    split at h
    · rename_i hbrace
      split at h
      · rename_i hcond
        simp only [Option.some.injEq, Prod.mk.injEq] at h
        obtain ⟨hi, ha⟩ := h
        obtain ⟨hc1, hc2⟩ := hbrace
        subst hc1; subst hc2
        refine ⟨?_, hi ▸ hcond.1⟩
        have h2 : ('}' :: '}' :: (rest.dropWhile (· != '}')).drop 2 : List Char)
            = rest.dropWhile (· != '}') := by
          conv_rhs => rw [← List.take_append_drop 2 (rest.dropWhile (· != '}'))]
          rw [hcond.2]
          rfl
        have h3 : rest = inner ++ '}' :: '}' :: after := by
          rw [← hi, ← ha, h2]
          exact (List.takeWhile_append_dropWhile (p := (· != '}')) (l := rest)).symm
        rw [h3]
        simp
      · exact absurd h (by simp)
    · exact absurd h (by simp)

def matchPlaceholder_length {l inner after : List Char}
    (h : matchPlaceholder l = some (inner, after)) :
    after.length < l.length := by
  obtain ⟨rfl, _⟩ := matchPlaceholder_some h
  simp
  omega

/-- The pending literal run flushed into `parts` only when non-empty
(`if (match.index > lastIndex)` / `if (lastIndex < text.length)`). -/
def flushPending (pending : List Char) : List Seg :=
  match pending with
  | [] => []
  | _ :: _ => [⟨.text, pending⟩]

/-- The scan loop of `renderEditableTemplate` (editable-template-list.tsx
lines 492-509): repeatedly find the next placeholder match, flushing the
literal text accumulated since the previous match before it; unmatched text
(including a lone or malformed brace pair) is accumulated as literal. -/
def scanTemplate (pending : List Char) (l : List Char) : List Seg :=
  match l with
  | [] => flushPending pending
  | c :: rest =>
    match e : matchPlaceholder (c :: rest) with
    | some (inner, after) =>
      flushPending pending ++ (⟨.placeholder, inner⟩ :: scanTemplate [] after)
    | none => scanTemplate (pending ++ [c]) rest
termination_by l.length
decreasing_by
  · exact matchPlaceholder_length e
  · simp

/-- The `parts` array produced for a template string. -/
def templateParts (text : List Char) : List Seg :=
  scanTemplate [] text

/-- The re-join performed when a placeholder is edited
(editable-template-list.tsx lines 541-544): placeholder parts are
re-wrapped in double braces, text parts are kept verbatim, and everything
is concatenated. -/
def segChars : Seg → List Char
  | ⟨.text, content⟩ => content
  | ⟨.placeholder, content⟩ => '{' :: '{' :: content ++ '}' :: '}' :: []

/-- `parts.map(...).join('')`. -/
def joinSegs (segs : List Seg) : List Char :=
  (segs.map segChars).flatten

/-- The inner texts of the placeholder parts, in order. -/
def placeholderContents (segs : List Seg) : List (List Char) :=
  segs.filterMap fun g =>
    if g.kind = SegKind.placeholder then some g.content else none

/-- Specification-side description of the well-formed placeholder spans of
a string: reading left to right, each greedy double-brace match contributes
its inner text and scanning resumes after it; any other character is
literal. -/
def wellFormedSpans (l : List Char) : List (List Char) :=
  match l with
  | [] => []
  | c :: rest =>
    match e : matchPlaceholder (c :: rest) with
    | some (inner, after) => inner :: wellFormedSpans after
    | none => wellFormedSpans rest
termination_by l.length
decreasing_by
  · exact matchPlaceholder_length e
  · simp

/-! ### Draft persistence (client/src/pages/travel-booking.tsx) -/

/-- `presetIncludes` (travel-booking.tsx lines 20-28). -/
def presetIncludes : List String := [
  "Return International air fare + airport taxes + fuel surcharges + 20kg checked luggage",
  "Stay 05 Night as per itinerary based on twin / triple sharing",
  "Private touring in A/C coach with local Mandarin speaking guide as per itinerary",
  "Meals as per itinerary",
  "Tipping of tour guide & driver",
  "Travel Insurance (for age above 69 years old, require to top up RM108)",
  "01 tour leader service"]

/-- `presetExcludes` (travel-booking.tsx lines 30-33). -/
def presetExcludes : List String := [
  "Hotel Portage in/out luggage",
  "Other expenses which are not indicated in itinerary"]

/-- `STORAGE_VERSION`. -/
def storageVersion : String := "v1"

/-- The seven-day draft lifetime in milliseconds. -/
def sevenDaysMs : Nat := 7 * 24 * 60 * 60 * 1000

/-- The form values of the autosaving variant of travel-booking.tsx (the
fields handled by `saveFormData` / `getInitialValues`). -/
structure FormValues where
  starting_date : String
  meals_provided : Bool
  flight_information : String
  tour_fair_includes : List String
  tour_fair_excludes : List String
  uploaded_file : Option UploadedFile
  file_size_limit_enabled : Bool
deriving Repr, DecidableEq

/-- The file metadata kept in a stored draft in place of the file bytes. -/
structure FileMetadata where
  filename : String
  size : Int
  type : String
deriving Repr, DecidableEq

/-- The JSON record written under `FORM_STORAGE_KEY`. -/
structure StoredFormData where
  version : String
  timestamp : Nat
  data : FormValues
  fileMetadata : Option FileMetadata
deriving Repr, DecidableEq

/-- The emptiness test of `saveFormData` (travel-booking.tsx lines 43-48):
JavaScript truthiness makes a string count only when non-empty, the file
only when non-null, and an array (always truthy) only through its length
comparison with the preset list. -/
def hasData (d : FormValues) : Bool :=
  d.starting_date != "" || d.meals_provided || d.flight_information != "" ||
    d.uploaded_file.isSome ||
    d.tour_fair_includes.length > presetIncludes.length ||
    d.tour_fair_excludes.length > presetExcludes.length

/-- `saveFormData` (travel-booking.tsx lines 40-79): a no-op when the form
is essentially empty; otherwise the draft is written with the schema
version, the current time, the data with the file nulled out, and the
file's metadata kept separately. -/
def saveFormData (d : FormValues) (now : Nat)
    (store : Option StoredFormData) : Option StoredFormData :=
  if !hasData d then store
  else
    some ⟨storageVersion, now,
      { d with uploaded_file := none },
      d.uploaded_file.map fun f => ⟨f.filename, f.size, f.type⟩⟩

/-- `loadFormData` (travel-booking.tsx lines 81-110): a missing draft yields
`null`; a version mismatch or a draft older than seven days removes the
stored item and yields `null`; otherwise the data and a had-file flag are
returned. The storage state after the call is returned alongside. -/
def loadFormData (store : Option StoredFormData) (now : Nat) :
    Option (FormValues × Bool) × Option StoredFormData :=
  match store with
  | none => (none, none)
  | some r =>
    if r.version != storageVersion then (none, none)
    else if now - r.timestamp > sevenDaysMs then (none, none)
    else (some (r.data, r.fileMetadata.isSome), some r)

/-- The default initial values of the autosaving form. -/
def defaultFormValues : FormValues :=
  ⟨"", false, "", presetIncludes, presetExcludes, none, true⟩

/-- `getInitialValues` (travel-booking.tsx lines 126-151): restore each
saved field (the `||` fallbacks coincide with the saved value for strings
and booleans; a saved array is always truthy), force `uploaded_file` to
`null`, and keep a saved `file_size_limit_enabled` since it is never
`undefined` in a draft written by `saveFormData`; with no usable draft,
return the defaults. -/
def getInitialValues (store : Option StoredFormData) (now : Nat) :
    FormValues :=
  match (loadFormData store now).1 with
  | some (data, _) =>
    ⟨if data.starting_date != "" then data.starting_date else "",
     data.meals_provided || false,
     if data.flight_information != "" then data.flight_information else "",
     data.tour_fair_includes,
     data.tour_fair_excludes,
     none,
     data.file_size_limit_enabled⟩
  | none => defaultFormValues

/-! ### Concrete inputs used by witness and counterexample theorems -/

/-- A submission body that is well-formed for `travelBookingSchema` except
that its `itinerary_language` is the empty string. -/
def cBodyEmptyLang : Json := .obj [
  ("starting_date", .str "2024-12-25"),
  ("meals_provided", .bool true),
  ("flight_information", .str "SQ123"),
  ("number_of_delegates", .num 2),
  ("number_of_tour_leaders", .num 1),
  ("hotel_selection", .str "Grand Hotel"),
  ("tour_fare", .num 100),
  ("single_supplement", .null),
  ("special_terms_enabled", .bool false),
  ("special_terms", .arr []),
  ("tour_fair_includes", .arr [.str "x"]),
  ("tour_fair_excludes", .arr [.str "y"]),
  ("uploaded_file", .obj [
    ("filename", .str "a.pdf"), ("size", .num 100),
    ("type", .str "application/pdf"), ("data", .str "QQ==")]),
  ("markdown_content", .str ""),
  ("file_size_limit_enabled", .bool true),
  ("itinerary_language", .str "")]

/-- The typed record `cBodyEmptyLang` parses to. -/
def cParsedEmptyLang : TravelBooking :=
  ⟨some "2024-12-25", true, "SQ123", 2, 1, "Grand Hotel", some 100, none,
   false, [], ["x"], ["y"], some ⟨"a.pdf", 100, "application/pdf", "QQ=="⟩,
   "", true, ""⟩

/-- The same submission body with `itinerary_language` set to English. -/
def cBodyValid : Json := .obj [
  ("starting_date", .str "2024-12-25"),
  ("meals_provided", .bool true),
  ("flight_information", .str "SQ123"),
  ("number_of_delegates", .num 2),
  ("number_of_tour_leaders", .num 1),
  ("hotel_selection", .str "Grand Hotel"),
  ("tour_fare", .num 100),
  ("single_supplement", .null),
  ("special_terms_enabled", .bool false),
  ("special_terms", .arr []),
  ("tour_fair_includes", .arr [.str "x"]),
  ("tour_fair_excludes", .arr [.str "y"]),
  ("uploaded_file", .obj [
    ("filename", .str "a.pdf"), ("size", .num 100),
    ("type", .str "application/pdf"), ("data", .str "QQ==")]),
  ("markdown_content", .str ""),
  ("file_size_limit_enabled", .bool true),
  ("itinerary_language", .str "English")]

/-- The typed record `cBodyValid` parses to. -/
def cParsedValid : TravelBooking :=
  { cParsedEmptyLang with itinerary_language := "English" }

/-- Form values satisfying every strict-form constraint except the empty
`itinerary_language`. -/
def cFormEmptyLang : TravelBookingFormValues :=
  ⟨some "2024-12-25", true, some "SQ123", 2, 1, "Grand Hotel", none, none,
   false, [], ["x"], ["y"],
   some ⟨"a.pdf", 100, "application/pdf", "QQ=="⟩, some "", true, ""⟩

/-- Form values with no uploaded file. -/
def cFormNoFile : TravelBookingFormValues :=
  ⟨some "2024-12-25", true, some "SQ123", 2, 1, "Grand Hotel", none, none,
   false, [], ["x"], ["y"], none, some "", true, "English"⟩

/-- A non-empty form state (meals switched on, a file attached) for the
draft save/restore round trip. -/
def cDraftForm : FormValues :=
  ⟨"", true, "", presetIncludes, presetExcludes,
   some ⟨"itinerary.pdf", 2048, "application/pdf", "QQ=="⟩, true⟩

/-- A stored draft carrying the current schema version, used to exercise
the seven-day age check. -/
def cStaleDraft : StoredFormData :=
  ⟨storageVersion, 0, defaultFormValues, none⟩

/-- A stored draft with a mismatched schema version. -/
def cOldVersionDraft : StoredFormData :=
  ⟨"v0", 0, defaultFormValues, none⟩

/-- An essentially-empty form state: all preset includes removed, excludes
untouched, size-limit toggle switched off. -/
def cEmptyishForm : FormValues :=
  ⟨"", false, "", [], presetExcludes, none, false⟩

/-- A pre-existing stored draft, used to observe that a no-op save leaves
storage untouched. -/
def cPriorDraft : StoredFormData :=
  ⟨storageVersion, 42, defaultFormValues, none⟩

/-! ## Theorems

Helper lemmas first, then one theorem per specification claim (with a
closed witness theorem whenever the claim theorem carries hypotheses). -/

theorem scanTemplate_nil (pending : List Char) :
    scanTemplate pending [] = flushPending pending := by
  unfold scanTemplate
  rfl

theorem scanTemplate_pos {c : Char} {rest inner after : List Char}
    (pending : List Char)
    (h : matchPlaceholder (c :: rest) = some (inner, after)) :
    scanTemplate pending (c :: rest) =
      flushPending pending ++
        (⟨.placeholder, inner⟩ :: scanTemplate [] after) := by
  rw [scanTemplate]
  split
  · rename_i inner' after' e
    rw [h] at e
    injection e with e'
    rw [Prod.mk.injEq] at e'
    rw [e'.1, e'.2]
  · rename_i e
    rw [h] at e
    cases e

theorem scanTemplate_neg {c : Char} {rest : List Char}
    (pending : List Char)
    (h : matchPlaceholder (c :: rest) = none) :
    scanTemplate pending (c :: rest) = scanTemplate (pending ++ [c]) rest := by
  rw [scanTemplate]
  split
  · rename_i inner' after' e
    rw [h] at e
    cases e
  · rfl

theorem wellFormedSpans_nil : wellFormedSpans [] = [] := by
  unfold wellFormedSpans
  rfl

theorem wellFormedSpans_pos {c : Char} {rest inner after : List Char}
    (h : matchPlaceholder (c :: rest) = some (inner, after)) :
    wellFormedSpans (c :: rest) = inner :: wellFormedSpans after := by
  rw [wellFormedSpans]
  split
  · rename_i inner' after' e
    rw [h] at e
    injection e with e'
    rw [Prod.mk.injEq] at e'
    rw [e'.1, e'.2]
  · rename_i e
    rw [h] at e
    cases e

theorem wellFormedSpans_neg {c : Char} {rest : List Char}
    (h : matchPlaceholder (c :: rest) = none) :
    wellFormedSpans (c :: rest) = wellFormedSpans rest := by
  rw [wellFormedSpans]
  split
  · rename_i inner' after' e
    rw [h] at e
    cases e
  · rfl

theorem joinSegs_flushPending (pending : List Char) :
    joinSegs (flushPending pending) = pending := by
  cases pending <;> simp [flushPending, joinSegs, segChars]

theorem joinSegs_append (a b : List Seg) :
    joinSegs (a ++ b) = joinSegs a ++ joinSegs b := by
  simp [joinSegs]

theorem joinSegs_cons (s : Seg) (rest : List Seg) :
    joinSegs (s :: rest) = segChars s ++ joinSegs rest := by
  simp [joinSegs]

theorem placeholderContents_flushPending (pending : List Char) :
    placeholderContents (flushPending pending) = [] := by
  cases pending <;> simp [flushPending, placeholderContents]

theorem placeholderContents_append (a b : List Seg) :
    placeholderContents (a ++ b) =
      placeholderContents a ++ placeholderContents b := by
  simp [placeholderContents]

theorem scanTemplate_join :
    ∀ (n : Nat) (l pending : List Char), l.length ≤ n →
      joinSegs (scanTemplate pending l) = pending ++ l := by
  intro n
  induction n with
  | zero =>
    intro l pending h
    have hl : l = [] := by cases l <;> simp_all
    subst hl
    rw [scanTemplate_nil, joinSegs_flushPending]
    simp
  | succ n ih =>
    intro l pending h
    match l with
    | [] =>
      rw [scanTemplate_nil, joinSegs_flushPending]
      simp
    | c :: rest =>
      cases e : matchPlaceholder (c :: rest) with
      | none =>
        rw [scanTemplate_neg pending e,
          ih rest (pending ++ [c]) (by simpa using Nat.le_of_succ_le_succ h)]
        simp
      | some p =>
        obtain ⟨inner, after⟩ := p
        rw [scanTemplate_pos pending e]
        have hlen := matchPlaceholder_length e
        have hrec := ih after []
          (by simp only [List.length_cons] at h hlen; omega)
        obtain ⟨hl, _⟩ := matchPlaceholder_some e
        rw [hl, joinSegs_append, joinSegs_cons, joinSegs_flushPending, hrec]
        simp [segChars]

theorem scanTemplate_spans :
    ∀ (n : Nat) (l pending : List Char), l.length ≤ n →
      placeholderContents (scanTemplate pending l) = wellFormedSpans l := by
  intro n
  induction n with
  | zero =>
    intro l pending h
    have hl : l = [] := by cases l <;> simp_all
    subst hl
    rw [scanTemplate_nil, placeholderContents_flushPending, wellFormedSpans_nil]
  | succ n ih =>
    intro l pending h
    match l with
    | [] =>
      rw [scanTemplate_nil, placeholderContents_flushPending, wellFormedSpans_nil]
    | c :: rest =>
      cases e : matchPlaceholder (c :: rest) with
      | none =>
        rw [scanTemplate_neg pending e, wellFormedSpans_neg e]
        exact ih rest (pending ++ [c]) (by simpa using Nat.le_of_succ_le_succ h)
      | some p =>
        obtain ⟨inner, after⟩ := p
        have hlen := matchPlaceholder_length e
        rw [scanTemplate_pos pending e, wellFormedSpans_pos e,
          placeholderContents_append, placeholderContents_flushPending]
        have hrec := ih after []
          (by simp only [List.length_cons] at h hlen; omega)
        simp only [placeholderContents, List.filterMap_cons] at hrec ⊢
        simp [hrec]

/-- C5: for every template string, the placeholder segmentation of
`renderEditableTemplate` yields exactly the string's well-formed
double-brace spans, in left-to-right order with their exact inner text,
and re-joining all segments with no edits (re-wrapping each placeholder in
its double braces) reproduces the original string verbatim. -/
theorem template_segmentation_roundtrip (s : List Char) :
    joinSegs (templateParts s) = s ∧
      placeholderContents (templateParts s) = wellFormedSpans s :=
  ⟨by simpa using scanTemplate_join s.length s [] le_rfl,
   scanTemplate_spans s.length s [] le_rfl⟩

/-- C7 (counterexample): in the legacy travel-form.js variant labels are
baked in at insertion and removal does not renumber, so after removing the
first preset of the excludes list the item now at position 0 displays the
label `b`, not the 0-th lowercase letter `a`. -/
theorem legacy_labels_stale_after_removal :
    ((legacyRemoveListItem (populatePresetItems presetExcludes) 0).map
        LegacyItem.label).get? 0 = some 'b' ∧ getLetter 0 = 'a' ∧ 'b' ≠ 'a' :=
  ⟨rfl, rfl, by decide⟩

/-- C7 (amended): in the React DynamicList component the displayed label at
position `i` is always the `i`-th lowercase letter, recomputed from the
live index on every render, for any seed list and any sequence of
append/edit/remove operations. -/
theorem dynamicList_labels_positional (start : List String) (ops : List ListOp)
    (i : Nat) (h : i < (applyListOps start ops).length) :
    (renderLabels (applyListOps start ops)).get? i =
      some (Char.ofNat (97 + i)) := by
  unfold renderLabels
  rw [List.get?_map, List.get?_range h]
  rfl

/-- Witness for C7's amended theorem at a concrete list and removal. -/
theorem dynamicList_labels_positional_witness :
    (renderLabels (applyListOps ["keep", "drop"] [ListOp.removeAt 0])).get? 0 =
      some (Char.ofNat (97 + 0)) :=
  dynamicList_labels_positional ["keep", "drop"] [ListOp.removeAt 0] 0
    (by decide)

/-- C9: `handleFile` on a file whose extension is not in the allow-list
never calls `onChange` (a previously-null value therefore stays null) and
leaves a non-empty error string; no partial state is retained. -/
theorem handleFile_bad_extension (accept : String) (maxSize : Nat)
    (name : String) (size : Nat) (mime : String) (enc : EncodeOutcome)
    (h : (allowedTypesOf accept).contains (fileExtensionOf name) = false) :
    (handleFile accept maxSize name size mime enc).onChangeCall = none ∧
    (handleFile accept maxSize name size mime enc).error =
      some "Invalid file type. Please upload PDF, DOC, or DOCX files only." ∧
    "Invalid file type. Please upload PDF, DOC, or DOCX files only." ≠ "" := by
  have hc : ¬ ((allowedTypesOf accept).contains (fileExtensionOf name) = true) := by
    rw [h]
    simp
  have hv : validateFile accept maxSize name size =
      some "Invalid file type. Please upload PDF, DOC, or DOCX files only." := by
    unfold validateFile
    rw [if_pos hc]
  refine ⟨?_, ?_, by decide⟩ <;> simp [handleFile, hv]

/-- Witness for C9 at a concrete `.exe` file. -/
theorem handleFile_bad_extension_witness :
    (handleFile ".pdf,.doc,.docx" (10 * 1024 * 1024) "script.exe" 512
        "application/octet-stream" (.ok "QQ==")).onChangeCall = none ∧
    (handleFile ".pdf,.doc,.docx" (10 * 1024 * 1024) "script.exe" 512
        "application/octet-stream" (.ok "QQ==")).error =
      some "Invalid file type. Please upload PDF, DOC, or DOCX files only." ∧
    "Invalid file type. Please upload PDF, DOC, or DOCX files only." ≠ "" :=
  handleFile_bad_extension ".pdf,.doc,.docx" (10 * 1024 * 1024) "script.exe"
    512 "application/octet-stream" (.ok "QQ==") (by decide)

/-- C3 (code bug, evaluated at the failing input): with the size-limit
toggle off, travel-booking.tsx passes `maxSize = undefined`, the
component's destructuring default reinstates the 10 MB ceiling, and a
10485761-byte PDF is rejected with the size-limit message exactly as when
the toggle is on; the legacy travel-form.js variant (using `Infinity`)
implements the claimed unlimited behaviour. -/
theorem sizeLimit_toggle_ineffective :
    validateFile ".pdf,.doc,.docx" (fileUploadMaxSize (maxSizeProp false))
        "itinerary.pdf" (10 * 1024 * 1024 + 1) =
      some "File size exceeds 10 MB limit." ∧
    validateFile ".pdf,.doc,.docx" (fileUploadMaxSize (maxSizeProp true))
        "itinerary.pdf" (10 * 1024 * 1024 + 1) =
      some "File size exceeds 10 MB limit." ∧
    legacySizeCheckFails false (10 * 1024 * 1024 + 1) = false ∧
    legacySizeCheckFails true (10 * 1024 * 1024 + 1) = true := by
  refine ⟨by decide, by decide, rfl, rfl⟩

/-- C6: validating form values whose `uploaded_file` is null against the
strict `travelBookingFormSchema` always produces the
`Document upload is required` issue at the `uploaded_file` field. -/
theorem formSchema_rejects_null_file (f : TravelBookingFormValues)
    (h : f.uploaded_file = none) :
    ZodIssue.mk ["uploaded_file"] "Document upload is required" ∈
      travelBookingFormIssues f := by
  unfold travelBookingFormIssues
  rw [h]
  simp

/-- Witness for C6 at concrete form values with no file. -/
theorem formSchema_rejects_null_file_witness :
    ZodIssue.mk ["uploaded_file"] "Document upload is required" ∈
      travelBookingFormIssues cFormNoFile :=
  formSchema_rejects_null_file cFormNoFile rfl

/-- C10: `saveFormData` is a no-op — the stored draft, if any, is left
unchanged — whenever `starting_date`, `flight_information` and
`uploaded_file` are empty or null, `meals_provided` is false, and neither
list is longer than its preset list; so toggling `file_size_limit_enabled`
or removing/editing preset items in place never produces a draft. -/
theorem saveFormData_noop_when_empty (f : FormValues) (now : Nat)
    (store : Option StoredFormData)
    (h1 : f.starting_date = "") (h2 : f.meals_provided = false)
    (h3 : f.flight_information = "") (h4 : f.uploaded_file = none)
    (h5 : f.tour_fair_includes.length ≤ presetIncludes.length)
    (h6 : f.tour_fair_excludes.length ≤ presetExcludes.length) :
    saveFormData f now store = store := by
  have hempty : hasData f = false := by
    unfold hasData
    rw [h1, h2, h3, h4]
    simp
    omega
  simp [saveFormData, hempty]

/-- Witness for C10: an emptied includes list and a switched-off size
limit leave a prior draft untouched. -/
theorem saveFormData_noop_when_empty_witness :
    saveFormData cEmptyishForm 999 (some cPriorDraft) = some cPriorDraft :=
  saveFormData_noop_when_empty cEmptyishForm 999 (some cPriorDraft)
    rfl rfl rfl rfl (by decide) (by decide)

/-- C1 (counterexample): a payload whose `itinerary_language` is the empty
string (but is otherwise well-formed) is not rejected by the endpoint: it
is answered with `success: true`, status 200, no `Validation error`
message and an empty error list, because the endpoint validates with the
base `travelBookingSchema`, which does not require `itinerary_language` to
be non-empty. -/
theorem emptyLanguage_accepted :
    (handleTravelBooking cBodyEmptyLang none (.ok (Json.obj []))).success = true ∧
    (handleTravelBooking cBodyEmptyLang none (.ok (Json.obj []))).status = 200 ∧
    (handleTravelBooking cBodyEmptyLang none (.ok (Json.obj []))).message ≠
      "Validation error" ∧
    (handleTravelBooking cBodyEmptyLang none (.ok (Json.obj []))).errors = [] := by
  refine ⟨rfl, rfl, by decide, rfl⟩

/-- C1 (amended): the endpoint validates against the base
`travelBookingSchema`, in which `itinerary_language` is an arbitrary
string; every payload the base schema parses — including one with an empty
`itinerary_language` — is answered with `success: true` and an empty error
list, and the non-emptiness requirement lives only in the client-side
`travelBookingFormSchema`, which reports an `itinerary_language` field
error when the value is empty. -/
theorem baseSchema_accepts_empty_language (body : Json) (url : Option String)
    (o : WebhookOutcome) (b : TravelBooking)
    (hp : travelBookingSchemaParse body = .ok b) :
    ((handleTravelBooking body url o).success = true ∧
      (handleTravelBooking body url o).errors = []) ∧
    (∀ f : TravelBookingFormValues, f.itinerary_language = "" →
      ZodIssue.mk ["itinerary_language"]
          "Please select or enter an itinerary language" ∈
        travelBookingFormIssues f) := by
  constructor
  · unfold handleTravelBooking
    rw [hp]
    cases url <;> cases o <;> simp
  · intro f hf
    unfold travelBookingFormIssues
    rw [hf]
    simp

/-- Witness for C1's amended theorem: the concrete empty-language body
parses under the base schema and is accepted, and the strict form schema
flags the same empty language. -/
theorem baseSchema_accepts_empty_language_witness :
    ((handleTravelBooking cBodyEmptyLang none (.transportError "boom")).success = true ∧
      (handleTravelBooking cBodyEmptyLang none (.transportError "boom")).errors = []) ∧
    (ZodIssue.mk ["itinerary_language"]
        "Please select or enter an itinerary language" ∈
      travelBookingFormIssues cFormEmptyLang) :=
  ⟨(baseSchema_accepts_empty_language cBodyEmptyLang none
      (.transportError "boom") cParsedEmptyLang rfl).1,
   (baseSchema_accepts_empty_language cBodyEmptyLang none
      (.transportError "boom") cParsedEmptyLang rfl).2 cFormEmptyLang rfl⟩

/-- C2: when a forwarding URL is configured and the downstream POST fails
(non-ok HTTP status or transport error), the endpoint still answers the
caller with `success: true` at the default success status, carries the
`webhookError` marker, and reports the delivery failure only through the
message and marker — never as a client-facing error. -/
theorem webhookFailure_still_success (body : Json) (b : TravelBooking)
    (url : String) (o : WebhookOutcome)
    (hp : travelBookingSchemaParse body = .ok b) (hf : o.failed = true) :
    (handleTravelBooking body (some url) o).success = true ∧
    (handleTravelBooking body (some url) o).status = 200 ∧
    (handleTravelBooking body (some url) o).webhookError.isSome = true ∧
    (handleTravelBooking body (some url) o).message =
      "Travel booking received successfully (webhook delivery failed)" := by
  unfold handleTravelBooking
  rw [hp]
  cases o with
  | ok result => simp [WebhookOutcome.failed] at hf
  | httpError s t => exact ⟨rfl, rfl, rfl, rfl⟩
  | transportError m => exact ⟨rfl, rfl, rfl, rfl⟩

/-- Witness for C2 at the concrete valid body and an HTTP 500 from the
webhook. -/
theorem webhookFailure_still_success_witness :
    (handleTravelBooking cBodyValid (some "https://hooks.example/wf")
        (.httpError 500 "Internal Server Error")).success = true ∧
    (handleTravelBooking cBodyValid (some "https://hooks.example/wf")
        (.httpError 500 "Internal Server Error")).status = 200 ∧
    (handleTravelBooking cBodyValid (some "https://hooks.example/wf")
        (.httpError 500 "Internal Server Error")).webhookError.isSome = true ∧
    (handleTravelBooking cBodyValid (some "https://hooks.example/wf")
        (.httpError 500 "Internal Server Error")).message =
      "Travel booking received successfully (webhook delivery failed)" :=
  webhookFailure_still_success cBodyValid cParsedValid "https://hooks.example/wf"
    (.httpError 500 "Internal Server Error") rfl rfl

/-- C4 (counterexample): a concrete valid payload is accepted by the
endpoint (`success: true`) while the ephemeral store is left exactly as it
was — empty — because `registerRoutes` never invokes the storage module;
the accepted submission is not handed to the store. -/
theorem endpoint_never_stores :
    (handleTravelBookingWithStore [] cBodyValid none (.ok (Json.obj []))).1.success
      = true ∧
    (handleTravelBookingWithStore [] cBodyValid none (.ok (Json.obj []))).2 = [] :=
  ⟨rfl, rfl⟩

/-- C4 (amended): the endpoint leaves the ephemeral store unchanged on
every request (it never invokes the store); the store's create operation
itself, when called, returns the record enriched with the given identifier
and creation timestamp, alters no field of the original payload, and
inserts the enriched record under its identifier. -/
theorem store_unused_and_create_semantics (store : MemStorage) (body : Json)
    (url : Option String) (o : WebhookOutcome) (b : TravelBooking)
    (id : String) (now : Nat) :
    (handleTravelBookingWithStore store body url o).2 = store ∧
    (createTravelBooking store b id now).1.booking = b ∧
    (createTravelBooking store b id now).1.id = id ∧
    (createTravelBooking store b id now).1.createdAt = now ∧
    (createTravelBooking store b id now).2 =
      (id, (createTravelBooking store b id now).1) :: store :=
  ⟨rfl, rfl, rfl, rfl, rfl⟩

/-- C8: a draft saved by `saveFormData` and reloaded within seven days with
the matching schema version restores every saved field as the form's
initial values except `uploaded_file`, which is forced to null; a stored
draft older than seven days, or one with a mismatched version, is removed
from storage and ignored. -/
theorem draft_restore_and_expiry (f : FormValues) (tSave tLoad : Nat)
    (r : StoredFormData) (hd : hasData f = true) :
    (tLoad - tSave ≤ sevenDaysMs →
      getInitialValues (saveFormData f tSave none) tLoad =
        { f with uploaded_file := none }) ∧
    (tLoad - r.timestamp > sevenDaysMs →
      loadFormData (some r) tLoad = (none, none)) ∧
    (r.version ≠ storageVersion →
      loadFormData (some r) tLoad = (none, none)) := by
  refine ⟨?_, ?_, ?_⟩
  · intro hage
    obtain ⟨sd, mp, fi, inc, exc, uf, fsl⟩ := f
    have hsave : saveFormData ⟨sd, mp, fi, inc, exc, uf, fsl⟩ tSave none =
        some ⟨storageVersion, tSave, ⟨sd, mp, fi, inc, exc, none, fsl⟩,
          uf.map fun fl => ⟨fl.filename, fl.size, fl.type⟩⟩ := by
      unfold saveFormData
      rw [hd]
      rfl
    unfold getInitialValues loadFormData
    rw [hsave]
    simp only [bne_self_eq_false]
    rw [if_neg (by simp)]
    rw [if_neg (by omega)]
    dsimp only
    have hsd : (if (sd != "") = true then sd else "") = sd := by
      by_cases h : sd = "" <;> simp [h]
    have hfi : (if (fi != "") = true then fi else "") = fi := by
      by_cases h : fi = "" <;> simp [h]
    rw [hsd, hfi, Bool.or_false]
  · intro hage
    have hl : loadFormData (some r) tLoad =
        if (r.version != storageVersion) = true then (none, none)
        else if tLoad - r.timestamp > sevenDaysMs then (none, none)
        else (some (r.data, r.fileMetadata.isSome), some r) := rfl
    rw [hl]
    by_cases hv : (r.version != storageVersion) = true
    · rw [if_pos hv]
    · rw [if_neg hv, if_pos hage]
  · intro hv
    have hl : loadFormData (some r) tLoad =
        if (r.version != storageVersion) = true then (none, none)
        else if tLoad - r.timestamp > sevenDaysMs then (none, none)
        else (some (r.data, r.fileMetadata.isSome), some r) := rfl
    rw [hl, if_pos (bne_iff_ne.mpr hv)]

/-- Witness for C8: a concrete non-empty form state saved at time 0 and
restored at time 1000, a same-version draft discarded one millisecond
past seven days, and an old-version draft discarded immediately. -/
theorem draft_restore_and_expiry_witness :
    getInitialValues (saveFormData cDraftForm 0 none) 1000 =
      { cDraftForm with uploaded_file := none } ∧
    loadFormData (some cStaleDraft) (sevenDaysMs + 1) = (none, none) ∧
    loadFormData (some cOldVersionDraft) 5 = (none, none) :=
  ⟨(draft_restore_and_expiry cDraftForm 0 1000 cStaleDraft (by decide)).1
      (by decide),
   (draft_restore_and_expiry cDraftForm 0 (sevenDaysMs + 1) cStaleDraft
      (by decide)).2.1 (by decide),
   (draft_restore_and_expiry cDraftForm 0 5 cOldVersionDraft
      (by decide)).2.2 (by decide)⟩

end ItineraryQuotation
